import Mathlib

/-!
Verification development for the Tableau_API repository.

The transformation core lives in `src/backend/src/data_processing.py`
(class `DataProcessor`); the upload client lives in
`src/backend/src/api_integration.py` (class `CombustivelAPIClient`).
Pandas cells are modelled by `Cell` (a string, a rational number, or the
missing marker NaN); a pandas DataFrame is modelled by `DataFrame`, a
header list of column names plus row-major cell lists.  The pandas calls
made by the source (`pivot_table` with `aggfunc="first"`, column
selection, `pd.to_numeric(errors="coerce")`) are rendered at the level
of their documented semantics; modelling notes appear on each definition.
-/

/-- Cell of a loaded table: a textual value, a numeric value, or the
missing marker (pandas NaN). -/
inductive Cell
  | str (s : String)
  | num (q : ℚ)
  | nan
deriving DecidableEq, Repr

/-- In-memory table: a list of column names and row-major cell rows,
modelling a pandas DataFrame. -/
structure DataFrame where
  cols : List String
  rows : List (List Cell)
deriving DecidableEq, Repr

/-- Required input columns, from `DataProcessor.__init__`
(`self.expected_columns`). -/
def expected_columns : List String :=
  ["Cidades", "Combustíveis", "Measure Names", "Origens",
   "Medição", "Turno + Data", "Measure Values"]

/-- Measure Catalog, from `DataProcessor.__init__`
(`self.measure_names_order`); the trailing-whitespace variants are
preserved verbatim as in the source. -/
def measure_names_order : List String :=
  ["Estq. Dia. Ant. Utl. Medç.",
   "Estq. Ult. Medç",
   "Venda Utl. Medç",
   "Compra Dia Ult. Medç",
   "Verificação",
   "Capac.",
   "Venda Anterior",
   "Vol. Atual",
   "Carga",
   "Vendas",
   "Estoque",
   "Giro Estoque Hoje",
   "Percent. Cap. Hoje",
   "Media",
   "Estq. Final",
   "Giro Estq Final ",
   "Percent. Cap. Final Hoje",
   "Sugest.",
   "Média",
   "Estoque ",
   "Giro Estq",
   "Percent. Cap.",
   "Sugest. "]

/-- Key columns used as the pivot index in `_pivot_dataframe` and as the
protected columns in `_reorder_columns` / `_process_numeric_values`. -/
def keyCols : List String :=
  ["Cidades", "Origens", "Turno + Data", "Combustíveis", "Medição"]

/-- Look a cell up in a row by column name (pandas label indexing);
missing labels and short rows give NaN. -/
def rowGet (df : DataFrame) (r : List Cell) (c : String) : Cell :=
  match df.cols.findIdx? (fun c2 => c2 = c) with
  | some i => r.getD i Cell.nan
  | none => Cell.nan

/-- Cell of table `df` at row index `j`, column index `i` (NaN when out
of range). -/
def cellAtD (df : DataFrame) (j i : ℕ) : Cell :=
  (df.rows.getD j []).getD i Cell.nan

/-- Name of column `i` of `df` (empty string when out of range). -/
def colNameD (df : DataFrame) (i : ℕ) : String :=
  df.cols.getD i ""

/-- Column-presence check of `DataProcessor._validate_columns`:
`all(col in df.columns for col in self.expected_columns)`. -/
def validate_columns (df : DataFrame) : Bool :=
  expected_columns.all (fun c => decide (c ∈ df.cols))

/-- Required columns absent from `df`, the content the spec calls the
list of missing columns. -/
def missingColumns (df : DataFrame) : List String :=
  expected_columns.filter (fun c => decide (c ∉ df.cols))

/-- Duplicate removal keeping the first occurrence of each element, used
to model the distinct group keys and distinct column labels formed by
`pivot_table`. -/
def dedupKeepFirst {α : Type} [DecidableEq α] (l : List α) : List α :=
  l.reverse.dedup.reverse

/-- Predicate for textual cells. -/
def isStrCell : Cell → Bool
  | Cell.str _ => true
  | _ => false

/-- Predicate for numeric cells. -/
def isNumCell : Cell → Bool
  | Cell.num _ => true
  | _ => false

/-- Row participates in the pivot grouping: `pivot_table` groups by the
five index columns plus `Measure Names`, and pandas `groupby` drops
rows whose group keys contain NaN; column labels are modelled for
textual `Measure Names` cells. -/
def isGrouped (df : DataFrame) (r : List Cell) : Bool :=
  keyCols.all (fun c => decide (rowGet df r c ≠ Cell.nan)) &&
    isStrCell (rowGet df r "Measure Names")

/-- Rows of `df` that participate in the pivot grouping. -/
def groupedRows (df : DataFrame) : List (List Cell) :=
  df.rows.filter (isGrouped df)

/-- Entity Key of a row: the five key cells in the index order of
`_pivot_dataframe`. -/
def rowKey (df : DataFrame) (r : List Cell) : List Cell :=
  keyCols.map (rowGet df r)

/-- Measure name of a row (grouped rows always carry a textual cell). -/
def rowMeasureName (df : DataFrame) (r : List Cell) : String :=
  match rowGet df r "Measure Names" with
  | Cell.str s => s
  | _ => ""

/-- Entity Key carries at least one non-null Measure Value among its
matching grouped rows.  With the default `dropna=True`, `pivot_table`
prunes aggregated rows that are entirely NaN before unstacking
(`agged.dropna(how="all")` in pandas), so a key fails this test exactly
when the program drops it from the pivot output. -/
def keyHasValue (df : DataFrame) (k : List Cell) : Bool :=
  (groupedRows df).any (fun r => decide (rowKey df r = k ∧
    rowGet df r "Measure Values" ≠ Cell.nan))

/-- Distinct Entity Keys of the pivot output: the distinct keys of the
grouped rows, restricted to keys carrying at least one non-null Measure
Value — the NaN row pruning of `pivot_table` with its default
`dropna=True`. -/
def pivotKeys (df : DataFrame) : List (List Cell) :=
  (dedupKeepFirst ((groupedRows df).map (rowKey df))).filter (keyHasValue df)

/-- Distinct measure names observed in the input. -/
def measureLabels (df : DataFrame) : List String :=
  dedupKeepFirst ((groupedRows df).map (rowMeasureName df))

/-- Measure Values of the rows matching a given Entity Key and measure
name, in load order. -/
def groupValues (df : DataFrame) (k : List Cell) (m : String) : List Cell :=
  ((groupedRows df).filter
      (fun r => decide (rowKey df r = k ∧ rowMeasureName df r = m))).map
    (fun r => rowGet df r "Measure Values")

/-- First non-NaN cell of a list (NaN when there is none), modelling the
pandas group aggregation `"first"`, which takes the first non-null
entry of the group. -/
def firstNonNan (l : List Cell) : Cell :=
  (l.find? (fun c => decide (c ≠ Cell.nan))).getD Cell.nan

/-- Measure columns of the pivoted table: `pivot_table` with its default
`dropna=True` omits columns whose entries are all NaN, so a label is
kept exactly when some matching row carries a non-NaN value. -/
def pivotCols (df : DataFrame) : List String :=
  (measureLabels df).filter
    (fun m => (groupedRows df).any
      (fun r => decide (rowMeasureName df r = m ∧
        rowGet df r "Measure Values" ≠ Cell.nan)))

/-- Model of `DataProcessor._pivot_dataframe`: `pivot_table` over the
five index columns with `columns="Measure Names"`,
`values="Measure Values"`, `aggfunc="first"`, followed by
`reset_index()`, which places the index columns first.  Keys whose
Measure Values are all NaN and labels whose cells are all NaN are
pruned, as `dropna=True` does; rows and columns are listed in
first-occurrence order — the claims proved below do not depend on the
intermediate ordering, which `_reorder_columns` overrides. -/
def pivot_dataframe (df : DataFrame) : DataFrame :=
  { cols := keyCols ++ pivotCols df
    rows := (pivotKeys df).map
      (fun k => k ++ (pivotCols df).map
        (fun m => firstNonNan (groupValues df k m))) }

/-- Catalog measure names present in the pivoted table
(`available_measure_names` in `_reorder_columns`; the source's two
branches both yield this filter). -/
def available_measure_names (df_pivot : DataFrame) : List String :=
  measure_names_order.filter (fun c => decide (c ∈ df_pivot.cols))

/-- Warning payload of `_reorder_columns`: the catalog columns absent
from the pivoted table (`missing_columns` in the source); the warning
is printed exactly when this list is non-empty. -/
def reorder_warning (df_pivot : DataFrame) : List String :=
  measure_names_order.filter (fun c => decide (c ∉ df_pivot.cols))

/-- Model of `DataProcessor._reorder_columns`: column selection
`df_pivot[columns_order]` with
`columns_order = keyCols + available_measure_names`; the key columns
are always present in the pivoted table. -/
def reorder_columns (df_pivot : DataFrame) : DataFrame :=
  { cols := keyCols ++ available_measure_names df_pivot
    rows := df_pivot.rows.map
      (fun r => (keyCols ++ available_measure_names df_pivot).map
        (rowGet df_pivot r)) }

/-- Decimal digit test. -/
def isDigitChar (c : Char) : Bool :=
  decide ('0' ≤ c) && decide (c ≤ '9')

/-- Numeric value of a digit string. -/
def digitsVal (l : List Char) : ℕ :=
  l.foldl (fun a c => 10 * a + (c.toNat - '0'.toNat)) 0

/-- Parse a decimal mantissa — digits with an optional fraction part —
into a numerator and the count of fraction digits, so the value is
numerator over ten to that count. -/
def parseMantissaParts (cs : List Char) : Option (ℕ × ℕ) :=
  let intPart := cs.takeWhile isDigitChar
  let rest := cs.dropWhile isDigitChar
  match rest with
  | [] => if intPart = [] then none else some (digitsVal intPart, 0)
  | '.' :: frac =>
    if frac.all isDigitChar ∧ ¬(intPart = [] ∧ frac = []) then
      some (digitsVal intPart * 10 ^ frac.length + digitsVal frac, frac.length)
    else none
  | _ => none

/-- Split a literal at its exponent mark `e`/`E`, when present. -/
def expSplit (cs : List Char) : List Char × Option (List Char) :=
  let mant := cs.takeWhile (fun c => !(c == 'e' || c == 'E'))
  let rest := cs.dropWhile (fun c => !(c == 'e' || c == 'E'))
  match rest with
  | [] => (mant, none)
  | _ :: es => (mant, some es)

/-- Parse an optionally signed run of digits, for the exponent part,
into a negativity flag and a magnitude. -/
def parseSignedDigits (cs : List Char) : Option (Bool × ℕ) :=
  match cs with
  | '-' :: ds =>
    if ds ≠ [] ∧ ds.all isDigitChar then some (true, digitsVal ds) else none
  | '+' :: ds =>
    if ds ≠ [] ∧ ds.all isDigitChar then some (false, digitsVal ds) else none
  | ds =>
    if ds ≠ [] ∧ ds.all isDigitChar then some (false, digitsVal ds) else none

/-- Parse an unsigned numeric literal: a decimal mantissa with an
optional scientific exponent, as accepted by the pandas numeric
converter. -/
def parseUnsigned (cs : List Char) : Option ℚ :=
  match expSplit cs with
  | (mant, none) =>
    (parseMantissaParts mant).map (fun p => mkRat (Int.ofNat p.1) (10 ^ p.2))
  | (mant, some es) =>
    match parseMantissaParts mant, parseSignedDigits es with
    | some p, some e =>
      if e.1 then some (mkRat (Int.ofNat p.1) (10 ^ (p.2 + e.2)))
      else some (mkRat (Int.ofNat (p.1 * 10 ^ e.2)) (10 ^ p.2))
    | _, _ => none

/-- Model of `pd.to_numeric(..., errors="coerce")` on one textual cell:
surrounding whitespace is ignored and an optionally signed decimal
literal — optional fraction part, optional scientific exponent — parses
to its value; anything else (including the named non-finite forms,
which the rational model cannot carry) coerces to the missing
marker. -/
def parseDecimal (s : String) : Option ℚ :=
  match ((s.toList.dropWhile Char.isWhitespace).reverse.dropWhile
      Char.isWhitespace).reverse with
  | '-' :: cs => (parseUnsigned cs).map (fun q => -q)
  | '+' :: cs => parseUnsigned cs
  | cs => parseUnsigned cs

/-- Strip every comma, modelling `.str.replace(",", "", regex=False)`. -/
def stripCommas (s : String) : String :=
  String.mk (s.toList.filter (fun c => decide (c ≠ ',')))

/-- Numeric coercion of a textual cell: the parsed number, or the
missing marker when the text does not parse. -/
def to_numeric_str (s : String) : Cell :=
  match parseDecimal s with
  | some q => Cell.num q
  | none => Cell.nan

/-- Cell transformation of the `object`-dtype branch of
`_process_numeric_values`: commas are stripped and the text coerced;
the pandas `.str` accessor maps non-string entries to NaN, and
`to_numeric` keeps NaN. -/
def objectCoerce : Cell → Cell
  | Cell.str s => to_numeric_str (stripCommas s)
  | _ => Cell.nan

/-- Cell transformation of the non-`object` branch of
`_process_numeric_values`: `pd.to_numeric(errors="coerce")` on an
already numeric column keeps numbers and NaN unchanged. -/
def numericCoerce : Cell → Cell
  | Cell.num q => Cell.num q
  | Cell.nan => Cell.nan
  | Cell.str s => to_numeric_str s

/-- Column `i` of `df` holds some textual cell; this is the reachable
reading of the source's dtype test `df[col].dtype.name == "object"`,
since the loader and the pivot produce textual columns exactly when
they carry strings. -/
def colHasStr (df : DataFrame) (i : ℕ) : Bool :=
  df.rows.any (fun r => isStrCell (r.getD i Cell.nan))

/-- Column `i` of `df` holds some numeric cell. -/
def colHasNum (df : DataFrame) (i : ℕ) : Bool :=
  df.rows.any (fun r => isNumCell (r.getD i Cell.nan))

/-- Model of `DataProcessor._process_numeric_values`: every column whose
name is not a key column is coerced cell-wise, through the
comma-stripping textual branch when the column is textual and through
plain numeric coercion otherwise; key columns pass through unchanged. -/
def process_numeric_values (df : DataFrame) : DataFrame :=
  { cols := df.cols
    rows := df.rows.map (fun r =>
      (List.range df.cols.length).map (fun i =>
        if df.cols.getD i "" ∈ keyCols then r.getD i Cell.nan
        else if colHasStr df i then objectCoerce (r.getD i Cell.nan)
        else numericCoerce (r.getD i Cell.nan))) }

/-- Stages of `transform_csv_to_xlsx`, in source order. -/
inductive Stage
  | load
  | validate
  | pivot
  | reorder
  | numeric
  | write
deriving DecidableEq, Repr

/-- Errors of the pipeline; `schemaError` carries the column list that
`_validate_columns` interpolates into its exception message. -/
inductive PipelineError
  | loadError
  | schemaError (reported : List String)
  | pivotError
  | reorderError
  | numericError
  | writeError
deriving DecidableEq, Repr

/-- Environment of one pipeline run: the loader's result (`none` when
`pd.read_csv` raises) and oracles telling whether the remaining calls
into pandas and the XLSX writer raise; the validation outcome itself is
determined by the loaded table. -/
structure RunEnv where
  loadResult : Option DataFrame
  pivotOk : Bool
  reorderOk : Bool
  numericOk : Bool
  writeOk : Bool
deriving Repr

/-- Environment of a run in which every external call succeeds. -/
def okEnv (df : DataFrame) : RunEnv :=
  { loadResult := some df, pivotOk := true, reorderOk := true,
    numericOk := true, writeOk := true }

/-- Data result of the successful pipeline:
numeric normalization after column reordering after the pivot. -/
def transformOutput (df : DataFrame) : DataFrame :=
  process_numeric_values (reorder_columns (pivot_dataframe df))

/-- Model of `DataProcessor.transform_csv_to_xlsx`: the stages run in
source order inside one `try` block, so the first failing stage aborts
the run; the trace lists the stages reached (the failing one included)
and the result is the table handed to the writer.  `_save_to_xlsx` is
the final statement of the `try` block. -/
def transform_csv_to_xlsx (env : RunEnv) : List Stage × Except PipelineError DataFrame :=
  match env.loadResult with
  | none => ([Stage.load], Except.error PipelineError.loadError)
  | some df =>
    if validate_columns df = false then
      ([Stage.load, Stage.validate],
       Except.error (PipelineError.schemaError expected_columns))
    else if env.pivotOk = false then
      ([Stage.load, Stage.validate, Stage.pivot],
       Except.error PipelineError.pivotError)
    else if env.reorderOk = false then
      ([Stage.load, Stage.validate, Stage.pivot, Stage.reorder],
       Except.error PipelineError.reorderError)
    else if env.numericOk = false then
      ([Stage.load, Stage.validate, Stage.pivot, Stage.reorder, Stage.numeric],
       Except.error PipelineError.numericError)
    else if env.writeOk = false then
      ([Stage.load, Stage.validate, Stage.pivot, Stage.reorder, Stage.numeric,
        Stage.write],
       Except.error PipelineError.writeError)
    else
      ([Stage.load, Stage.validate, Stage.pivot, Stage.reorder, Stage.numeric,
        Stage.write],
       Except.ok (transformOutput df))

/-- Outcomes of `CombustivelAPIClient._handle_response`; every
constructor other than `success` corresponds to a raised exception. -/
inductive ResponseOutcome
  | success (status : ℕ)
  | authFailure
  | payloadTooLarge
  | validationFailure
  | serverFailure (status : ℕ)
  | unknownFailure (status : ℕ)
deriving DecidableEq, Repr

/-- Model of `CombustivelAPIClient._handle_response`, branching on the
HTTP status code in source order. -/
def handle_response (status : ℕ) : ResponseOutcome :=
  if status = 201 then ResponseOutcome.success status
  else if status = 200 then ResponseOutcome.success status
  else if status = 401 then ResponseOutcome.authFailure
  else if status = 413 then ResponseOutcome.payloadTooLarge
  else if status = 422 then ResponseOutcome.validationFailure
  else if 500 ≤ status then ResponseOutcome.serverFailure status
  else ResponseOutcome.unknownFailure status

/-- Whether a response outcome is a raised exception. -/
def outcomeRaises : ResponseOutcome → Bool
  | ResponseOutcome.success _ => false
  | _ => true

/-- File metadata seen by `CombustivelAPIClient._validate_file`:
existence, the lowercased extension computed by
`FileManager.get_file_extension`, and the size in bytes. -/
structure FileInfo where
  present : Bool
  extension : String
  size : ℕ
deriving DecidableEq, Repr

/-- Upload size limit of `_validate_file` (50 MB). -/
def max_size : ℕ := 50 * 1024 * 1024

/-- Failure cases of `_validate_file`, in source order. -/
inductive FileCheckError
  | notFound
  | badExtension
  | emptyFile
  | tooLarge
deriving DecidableEq, Repr

/-- Model of `CombustivelAPIClient._validate_file`: existence, extension
(`['.xlsx', '.xls']`), non-emptiness and the 50 MB bound are checked in
source order; `none` means the file passes. -/
def validate_file (f : FileInfo) : Option FileCheckError :=
  if f.present = false then some FileCheckError.notFound
  else if ¬(f.extension ∈ [".xlsx", ".xls"]) then some FileCheckError.badExtension
  else if f.size = 0 then some FileCheckError.emptyFile
  else if max_size < f.size then some FileCheckError.tooLarge
  else none

/-- Steps of `upload_excel_file` relevant to pre-validation: the
`_validate_file` call precedes `_make_upload_request`. -/
inductive UploadStep
  | validateFileStep
  | httpRequest
deriving DecidableEq, Repr

/-- Model of the control flow of `CombustivelAPIClient.upload_excel_file`:
when `_validate_file` raises, the `try` block aborts before
`_make_upload_request` issues the HTTP POST. -/
def upload_excel_file_steps (f : FileInfo) : List UploadStep :=
  match validate_file f with
  | some _ => [UploadStep.validateFileStep]
  | none => [UploadStep.validateFileStep, UploadStep.httpRequest]

/-- Input with two rows sharing Entity Key and measure name, the first
carrying a missing value. -/
def dfDupMeasure : DataFrame :=
  { cols := expected_columns
    rows := [[Cell.str "A", Cell.str "Gas", Cell.str "Estoque", Cell.str "O1",
              Cell.str "M1", Cell.str "T1", Cell.nan],
             [Cell.str "A", Cell.str "Gas", Cell.str "Estoque", Cell.str "O1",
              Cell.str "M1", Cell.str "T1", Cell.str "5"]] }

/-- Pivoted table containing every catalog column plus one unknown
column. -/
def dfAllCatalog : DataFrame :=
  { cols := keyCols ++ measure_names_order ++ ["Coluna X"], rows := [] }

/-- Loaded table missing exactly one required column
(`Measure Values`). -/
def dfMissingOne : DataFrame :=
  { cols := ["Cidades", "Combustíveis", "Measure Names", "Origens",
             "Medição", "Turno + Data"], rows := [] }

/-- Loaded table with the full 7-column header and zero data rows. -/
def dfEmpty : DataFrame := { cols := expected_columns, rows := [] }

/-- Valid one-row input whose measure name is in the catalog. -/
def dfOneRow : DataFrame :=
  { cols := expected_columns
    rows := [[Cell.str "A", Cell.str "Gas", Cell.str "Vendas", Cell.str "O1",
              Cell.str "M1", Cell.str "T1", Cell.str "7"]] }

/-- Table with one textual measure column (a locale-formatted number, an
unparseable word, an empty text, a scientific-notation literal and a
whitespace-padded number) and one numeric measure column. -/
def dfMixedCells : DataFrame :=
  { cols := keyCols ++ ["Vendas", "Estoque"]
    rows := [[Cell.str "A", Cell.str "O1", Cell.str "T1", Cell.str "Gas",
              Cell.str "M1", Cell.str "1,234", Cell.num 42],
             [Cell.str "B", Cell.str "O1", Cell.str "T1", Cell.str "Gas",
              Cell.str "M1", Cell.str "abc", Cell.nan],
             [Cell.str "C", Cell.str "O1", Cell.str "T1", Cell.str "Gas",
              Cell.str "M1", Cell.str "", Cell.nan],
             [Cell.str "D", Cell.str "O1", Cell.str "T1", Cell.str "Gas",
              Cell.str "M1", Cell.str "1e5", Cell.nan],
             [Cell.str "E", Cell.str "O1", Cell.str "T1", Cell.str "Gas",
              Cell.str "M1", Cell.str " 5", Cell.nan]] }

/-- Valid one-row input whose single Measure Value is missing: its
Entity Key has no non-null value, so the pivot drops it. -/
def dfAllNanKey : DataFrame :=
  { cols := expected_columns
    rows := [[Cell.str "A", Cell.str "Gas", Cell.str "Estoque", Cell.str "O1",
              Cell.str "M1", Cell.str "T1", Cell.nan]] }

/-- Valid input with one key carrying a value and one key whose only
Measure Value is missing. -/
def dfMixedKeys : DataFrame :=
  { cols := expected_columns
    rows := [[Cell.str "A", Cell.str "Gas", Cell.str "Vendas", Cell.str "O1",
              Cell.str "M1", Cell.str "T1", Cell.str "7"],
             [Cell.str "B", Cell.str "Gas", Cell.str "Vendas", Cell.str "O1",
              Cell.str "M1", Cell.str "T1", Cell.nan]] }

/-- Run environment whose loader fails (`pd.read_csv` raises). -/
def envLoadFail : RunEnv :=
  { loadResult := none, pivotOk := true, reorderOk := true,
    numericOk := true, writeOk := true }

/-- File with a rejected extension. -/
def fBadExt : FileInfo := { present := true, extension := ".txt", size := 10 }

/-- File passing every pre-validation check. -/
def fGood : FileInfo := { present := true, extension := ".xlsx", size := 100 }

theorem mem_dedupKeepFirst {α : Type} [DecidableEq α] {l : List α} {x : α} :
    x ∈ dedupKeepFirst l ↔ x ∈ l := by
  simp [dedupKeepFirst]

theorem nodup_dedupKeepFirst {α : Type} [DecidableEq α] (l : List α) :
    (dedupKeepFirst l).Nodup := by
  rw [dedupKeepFirst, List.nodup_reverse]
  exact l.reverse.nodup_dedup

theorem getD_map_of_lt {α β : Type} (f : α → β) (l : List α) (j : ℕ)
    (h : j < l.length) (d : β) (d0 : α) :
    (l.map f).getD j d = f (l.getD j d0) := by
  cases hx : l[j]? with
  | none =>
    have hlen := List.getElem?_eq_none_iff.mp hx
    exact absurd h (Nat.not_lt.mpr hlen)
  | some a =>
    simp [List.getD_eq_getElem?_getD, List.getElem?_map, hx]

theorem getD_mem_of_lt {α : Type} (l : List α) (j : ℕ) (h : j < l.length)
    (d : α) : l.getD j d ∈ l := by
  cases hx : l[j]? with
  | none =>
    have hlen := List.getElem?_eq_none_iff.mp hx
    exact absurd h (Nat.not_lt.mpr hlen)
  | some a =>
    rw [List.getD_eq_getElem?_getD, hx]
    exact List.getElem?_mem hx

theorem getD_append_right_of_le {α : Type} {l₁ l₂ : List α} {i : ℕ}
    (h : l₁.length ≤ i) (d : α) :
    (l₁ ++ l₂).getD i d = l₂.getD (i - l₁.length) d := by
  simp [List.getD_eq_getElem?_getD, List.getElem?_append_right h]

theorem isStrCell_to_numeric_str (s : String) :
    isStrCell (to_numeric_str s) = false := by
  rcases h : parseDecimal s with _ | q <;> simp [to_numeric_str, h, isStrCell]

theorem isStrCell_objectCoerce (c : Cell) :
    isStrCell (objectCoerce c) = false := by
  cases c with
  | str s => exact isStrCell_to_numeric_str (stripCommas s)
  | num q => rfl
  | nan => rfl

theorem isStrCell_numericCoerce (c : Cell) :
    isStrCell (numericCoerce c) = false := by
  cases c with
  | str s => exact isStrCell_to_numeric_str s
  | num q => rfl
  | nan => rfl

/-- C9: the upload client's response handler maps 201 and 200 to a
success result, 401 to an authentication failure, 413 to a too-large
failure, 422 to a validation failure, every status at least 500 to a
server failure and every other status to an unknown failure; it raises
exactly when the status is neither 200 nor 201. -/
theorem c9_handle_response_mapping (s : ℕ) :
    ((s = 201 ∨ s = 200) → handle_response s = ResponseOutcome.success s) ∧
    (s = 401 → handle_response s = ResponseOutcome.authFailure) ∧
    (s = 413 → handle_response s = ResponseOutcome.payloadTooLarge) ∧
    (s = 422 → handle_response s = ResponseOutcome.validationFailure) ∧
    (500 ≤ s → handle_response s = ResponseOutcome.serverFailure s) ∧
    (s ≠ 200 → s ≠ 201 → s ≠ 401 → s ≠ 413 → s ≠ 422 → s < 500 →
      handle_response s = ResponseOutcome.unknownFailure s) ∧
    (outcomeRaises (handle_response s) = true ↔ ¬(s = 200 ∨ s = 201)) := by
  unfold handle_response
  split_ifs with h1 h2 h3 h4 h5 h6 <;>
    refine ⟨?_, ?_, ?_, ?_, ?_, ?_, ?_⟩ <;>
      simp [outcomeRaises] <;> try omega

/-- C9 witness: status 404 is an unknown failure and raises; status 201
is a success. -/
theorem c9_witness :
    handle_response 404 = ResponseOutcome.unknownFailure 404 ∧
    outcomeRaises (handle_response 404) = true ∧
    handle_response 201 = ResponseOutcome.success 201 := by
  refine ⟨?_, ?_, ?_⟩
  · exact (c9_handle_response_mapping 404).2.2.2.2.2.1 (by decide) (by decide)
      (by decide) (by decide) (by decide) (by decide)
  · exact ((c9_handle_response_mapping 404).2.2.2.2.2.2).mpr (by decide)
  · exact (c9_handle_response_mapping 201).1 (Or.inl rfl)

/-- C10: `upload_excel_file` pre-validates the file before any network
request: it raises when the file does not exist, has an extension other
than `.xlsx`/`.xls`, is empty, or exceeds 50 MB, and a file meeting all
four conditions passes; a pre-validation failure prevents the HTTP
request. -/
theorem c10_upload_prevalidation (f : FileInfo) :
    (validate_file f = none ↔
      (f.present = true ∧ f.extension ∈ [".xlsx", ".xls"] ∧
        f.size ≠ 0 ∧ f.size ≤ max_size)) ∧
    (validate_file f ≠ none →
      UploadStep.httpRequest ∉ upload_excel_file_steps f) ∧
    (validate_file f = none →
      upload_excel_file_steps f =
        [UploadStep.validateFileStep, UploadStep.httpRequest]) := by
  refine ⟨?_, ?_, ?_⟩
  · unfold validate_file
    split_ifs with h1 h2 h3 h4 <;> simp_all
  · intro h
    unfold upload_excel_file_steps
    cases hv : validate_file f with
    | some e => simp
    | none => exact absurd hv h
  · intro h
    unfold upload_excel_file_steps
    rw [h]

/-- C10 witness: a `.txt` file fails pre-validation and no request is
made; an existing 100-byte `.xlsx` file passes. -/
theorem c10_witness :
    validate_file fBadExt ≠ none ∧
    UploadStep.httpRequest ∉ upload_excel_file_steps fBadExt ∧
    validate_file fGood = none := by
  refine ⟨by decide, (c10_upload_prevalidation fBadExt).2.1 (by decide), ?_⟩
  exact (c10_upload_prevalidation fGood).1.mpr (by decide)

/-- C8: writing the output file is the last step of the pipeline — the
write stage appears only at the end of a full trace, and it is reached
exactly when the load, validation, pivot, reorder and numeric stages
all succeed, so no failing run ever invokes the writer. -/
theorem c8_write_is_last (env : RunEnv) :
    (Stage.write ∈ (transform_csv_to_xlsx env).1 →
      (transform_csv_to_xlsx env).1 =
        [Stage.load, Stage.validate, Stage.pivot, Stage.reorder,
         Stage.numeric, Stage.write] ∧
      (transform_csv_to_xlsx env).1.getLast? = some Stage.write) ∧
    (((∃ df, env.loadResult = some df ∧ validate_columns df = true) ∧
        env.pivotOk = true ∧ env.reorderOk = true ∧ env.numericOk = true) ↔
      Stage.write ∈ (transform_csv_to_xlsx env).1) := by
  unfold transform_csv_to_xlsx
  cases henv : env.loadResult with
  | none => simp
  | some df =>
    cases hv : validate_columns df <;>
      cases hp : env.pivotOk <;>
        cases hr : env.reorderOk <;>
          cases hn : env.numericOk <;>
            cases hw : env.writeOk <;>
              simp_all

/-- C8 witness: when the loader fails, the writer is never invoked. -/
theorem c8_witness : Stage.write ∉ (transform_csv_to_xlsx envLoadFail).1 := by
  intro hw
  obtain ⟨⟨df, hdf, _⟩, _⟩ := (c8_write_is_last envLoadFail).2.mpr hw
  simp [envLoadFail] at hdf

/-- C7: on an input with a valid header and zero data rows the transform
completes without error, and the output table has the five key columns
only and zero rows. -/
theorem c7_empty_input (df : DataFrame)
    (hv : validate_columns df = true) (hrows : df.rows = []) :
    (transform_csv_to_xlsx (okEnv df)).2 =
      Except.ok { cols := keyCols, rows := [] } := by
  have hg : groupedRows df = [] := by simp [groupedRows, hrows]
  have hk : pivotKeys df = [] := by simp [pivotKeys, hg, dedupKeepFirst]
  have hm : measureLabels df = [] := by simp [measureLabels, hg, dedupKeepFirst]
  have hc : pivotCols df = [] := by simp [pivotCols, hm]
  have hp : pivot_dataframe df = { cols := keyCols, rows := [] } := by
    simp [pivot_dataframe, hk, hc]
  have hro : reorder_columns { cols := keyCols, rows := ([] : List (List Cell)) } =
      { cols := keyCols, rows := [] } := by decide
  have hpn : process_numeric_values { cols := keyCols, rows := ([] : List (List Cell)) } =
      { cols := keyCols, rows := [] } := by decide
  have htr : transform_csv_to_xlsx (okEnv df) =
      ([Stage.load, Stage.validate, Stage.pivot, Stage.reorder, Stage.numeric,
        Stage.write], Except.ok (transformOutput df)) := by
    unfold transform_csv_to_xlsx okEnv
    simp [hv]
  rw [htr]
  simp only [transformOutput, hp, hro, hpn]

/-- C7 witness: the concrete header-only input yields the empty wide
table with only the key columns. -/
theorem c7_witness :
    (transform_csv_to_xlsx (okEnv dfEmpty)).2 =
      Except.ok { cols := keyCols, rows := [] } :=
  c7_empty_input dfEmpty (by decide) rfl

/-- C6 counterexample: on a table missing exactly the column
`Measure Values`, the schema error reports the full expected-column
list, not the list of missing columns. -/
theorem c6_counterexample :
    missingColumns dfMissingOne = ["Measure Values"] ∧
    (transform_csv_to_xlsx (okEnv dfMissingOne)).2 =
      Except.error (PipelineError.schemaError expected_columns) ∧
    expected_columns ≠ ["Measure Values"] := by
  refine ⟨by decide, rfl, by decide⟩

/-- C6 (amended): a run whose loaded table misses at least one required
column fails with a schema error reporting the full list of the seven
required columns, and aborts before the pivot stage (and before the
write stage). -/
theorem c6_schema_error (env : RunEnv) (df : DataFrame)
    (hdf : env.loadResult = some df) (hmiss : missingColumns df ≠ []) :
    transform_csv_to_xlsx env =
      ([Stage.load, Stage.validate],
        Except.error (PipelineError.schemaError expected_columns)) ∧
    Stage.pivot ∉ (transform_csv_to_xlsx env).1 ∧
    Stage.write ∉ (transform_csv_to_xlsx env).1 := by
  have hv : validate_columns df = false := by
    cases hvb : validate_columns df with
    | false => rfl
    | true =>
      exfalso
      apply hmiss
      rw [missingColumns, List.filter_eq_nil_iff]
      intro a ha
      simp only [validate_columns, List.all_eq_true, decide_eq_true_eq] at hvb
      simp [hvb a ha]
  have heq : transform_csv_to_xlsx env =
      ([Stage.load, Stage.validate],
        Except.error (PipelineError.schemaError expected_columns)) := by
    unfold transform_csv_to_xlsx
    rw [hdf]
    simp [hv]
  refine ⟨heq, ?_, ?_⟩ <;> rw [heq] <;> decide

/-- C6 witness: the amended schema-error behaviour at the concrete
six-column table. -/
theorem c6_witness :
    transform_csv_to_xlsx (okEnv dfMissingOne) =
      ([Stage.load, Stage.validate],
        Except.error (PipelineError.schemaError expected_columns)) :=
  (c6_schema_error (okEnv dfMissingOne) dfMissingOne rfl (by decide)).1

/-- C5 counterexample: a pivoted table holding every catalog column plus
the unknown column `Coluna X` has that column dropped by the reorderer,
yet the warning list is empty — no warning is recorded for the unknown
column. -/
theorem c5_counterexample :
    "Coluna X" ∈ dfAllCatalog.cols ∧
    "Coluna X" ∉ (reorder_columns dfAllCatalog).cols ∧
    reorder_warning dfAllCatalog = [] := by
  refine ⟨by decide, by decide, by decide⟩

/-- C5 (amended): a measure column absent from the catalog is dropped
from the reordered table without any exception (the reorderer is a
total function); the warning is recorded exactly when some catalog name
is absent from the pivoted table, and it lists only catalog names —
never the unknown columns. -/
theorem c5_unknown_column_dropped (df_pivot : DataFrame) :
    (∀ c : String, c ∉ keyCols → c ∉ measure_names_order →
      c ∉ (reorder_columns df_pivot).cols) ∧
    (reorder_warning df_pivot = [] ↔
      ∀ m ∈ measure_names_order, m ∈ df_pivot.cols) ∧
    (∀ c ∈ reorder_warning df_pivot,
      c ∈ measure_names_order ∧ c ∉ df_pivot.cols) := by
  refine ⟨?_, ?_, ?_⟩
  · intro c hk hm hmem
    simp only [reorder_columns] at hmem
    rcases List.mem_append.mp hmem with h | h
    · exact hk h
    · exact hm (List.mem_filter.mp h).1
  · rw [reorder_warning, List.filter_eq_nil_iff]
    constructor
    · intro h m hm
      have := h m hm
      simpa using this
    · intro h m hm
      simp [h m hm]
  · intro c hc
    have h := List.mem_filter.mp hc
    exact ⟨h.1, by simpa using h.2⟩

/-- C5 witness: the amended behaviour at the concrete all-catalog
table: the unknown column is dropped and the warning condition is the
absence of catalog names. -/
theorem c5_witness :
    "Coluna X" ∉ (reorder_columns dfAllCatalog).cols ∧
    (reorder_warning dfAllCatalog = [] ↔
      ∀ m ∈ measure_names_order, m ∈ dfAllCatalog.cols) :=
  ⟨(c5_unknown_column_dropped dfAllCatalog).1 "Coluna X" (by decide) (by decide),
   (c5_unknown_column_dropped dfAllCatalog).2.1⟩

/-- C1 counterexample: a valid one-row input — columns present, key
cells non-null, textual measure name — whose only Measure Value is
missing has one distinct Entity Key, yet the pivoted table has no rows
at all: the key is dropped by the pivot's NaN row pruning,
contradicting the claim that no key is dropped. -/
theorem c1_counterexample :
    validate_columns dfAllNanKey = true ∧
    (∀ r ∈ dfAllNanKey.rows, ∀ c ∈ keyCols,
      rowGet dfAllNanKey r c ≠ Cell.nan) ∧
    (∀ r ∈ dfAllNanKey.rows,
      isStrCell (rowGet dfAllNanKey r "Measure Names") = true) ∧
    dfAllNanKey.rows.map (rowKey dfAllNanKey) =
      [[Cell.str "A", Cell.str "O1", Cell.str "T1", Cell.str "Gas",
        Cell.str "M1"]] ∧
    (pivot_dataframe dfAllNanKey).rows = [] := by
  refine ⟨by decide, by decide, by decide, by decide, by decide⟩

/-- C1 (amended): for a valid long-format input — all seven required
columns present, every row's five key cells non-null and every row's
measure name a textual value, as §3 requires of Long Rows — the pivoted
table has exactly one row per distinct Entity Key that carries at least
one non-null Measure Value: the key projections of the output rows are
duplicate-free, and a key appears among them exactly when it occurs in
the input and some matching row's Measure Value is non-null; keys whose
Measure Values are all missing are dropped by the pivot's NaN row
pruning. -/
theorem c1_one_row_per_key (df : DataFrame)
    (_hcols : validate_columns df = true)
    (hkeys : ∀ r ∈ df.rows, ∀ c ∈ keyCols, rowGet df r c ≠ Cell.nan)
    (hmn : ∀ r ∈ df.rows, isStrCell (rowGet df r "Measure Names") = true) :
    ((pivot_dataframe df).rows.map (fun r => r.take 5)).Nodup ∧
    (∀ k : List Cell,
      k ∈ (pivot_dataframe df).rows.map (fun r => r.take 5) ↔
        (k ∈ df.rows.map (rowKey df) ∧ keyHasValue df k = true)) := by
  have hg : groupedRows df = df.rows := by
    rw [groupedRows, List.filter_eq_self]
    intro r hr
    rw [isGrouped, Bool.and_eq_true]
    constructor
    · rw [List.all_eq_true]
      intro c hc
      simpa using hkeys r hr c hc
    · exact hmn r hr
  have hkeys5 : ∀ k ∈ pivotKeys df, k.length = 5 := by
    intro k hk
    have hk2 : k ∈ (dedupKeepFirst ((groupedRows df).map (rowKey df))).filter
        (keyHasValue df) := hk
    obtain ⟨r, hr, hrk⟩ :=
      List.mem_map.mp (mem_dedupKeepFirst.mp (List.mem_filter.mp hk2).1)
    rw [← hrk, rowKey, List.length_map]
    rfl
  have hmapstake : (pivot_dataframe df).rows.map (fun r => r.take 5) =
      pivotKeys df := by
    show ((pivotKeys df).map (fun k => k ++ (pivotCols df).map
        (fun m => firstNonNan (groupValues df k m)))).map
      (fun r => r.take 5) = pivotKeys df
    rw [List.map_map]
    refine Eq.trans (List.map_congr_left ?_) (List.map_id _)
    intro k hk
    exact List.take_left' (hkeys5 k hk)
  refine ⟨?_, ?_⟩
  · rw [hmapstake]
    exact List.Nodup.filter _ (nodup_dedupKeepFirst _)
  · intro k
    rw [hmapstake]
    simp only [pivotKeys, List.mem_filter, mem_dedupKeepFirst, hg]

/-- C1 witness: the amended key rule at the concrete input with one
valued key and one all-missing key. -/
theorem c1_witness :
    ((pivot_dataframe dfMixedKeys).rows.map (fun r => r.take 5)).Nodup ∧
    (∀ k : List Cell,
      k ∈ (pivot_dataframe dfMixedKeys).rows.map (fun r => r.take 5) ↔
        (k ∈ dfMixedKeys.rows.map (rowKey dfMixedKeys) ∧
          keyHasValue dfMixedKeys k = true)) :=
  c1_one_row_per_key dfMixedKeys (by decide) (by decide) (by decide)

/-- C4 counterexample: two rows share the Entity Key and the measure
name `Estoque`; the first matching row's Measure Value is the missing
marker, yet the pivoted cell holds the second row's value `"5"` — not
the value of the first row in load order, contradicting the claim. -/
theorem c4_counterexample :
    rowKey dfDupMeasure (dfDupMeasure.rows.getD 0 []) =
      rowKey dfDupMeasure (dfDupMeasure.rows.getD 1 []) ∧
    rowMeasureName dfDupMeasure (dfDupMeasure.rows.getD 0 []) = "Estoque" ∧
    rowMeasureName dfDupMeasure (dfDupMeasure.rows.getD 1 []) = "Estoque" ∧
    rowGet dfDupMeasure (dfDupMeasure.rows.getD 0 []) "Measure Values" =
      Cell.nan ∧
    colNameD (pivot_dataframe dfDupMeasure) 5 = "Estoque" ∧
    cellAtD (pivot_dataframe dfDupMeasure) 0 5 = Cell.str "5" ∧
    Cell.str "5" ≠ Cell.nan := by
  refine ⟨by decide, by decide, by decide, by decide, by decide, by decide,
    by decide⟩

/-- C4 (amended): every measure cell of the pivoted table equals the
first non-null Measure Value among the input rows matching that row's
Entity Key and that column's measure name, in load order — null values
are skipped, later matching values are discarded without warning, and
the cell is the missing marker when no matching row carries a value. -/
theorem c4_first_nonnull_wins (df : DataFrame) (j i : ℕ)
    (hj : j < (pivot_dataframe df).rows.length)
    (h5 : 5 ≤ i) (hi : i < (pivot_dataframe df).cols.length) :
    cellAtD (pivot_dataframe df) j i =
      firstNonNan (groupValues df
        (((pivot_dataframe df).rows.getD j []).take 5)
        (colNameD (pivot_dataframe df) i)) ∧
    (groupValues df (((pivot_dataframe df).rows.getD j []).take 5)
        (colNameD (pivot_dataframe df) i) = [] →
      cellAtD (pivot_dataframe df) j i = Cell.nan) := by
  have hjk : j < (pivotKeys df).length := by
    simpa [pivot_dataframe] using hj
  have hrow : (pivot_dataframe df).rows.getD j [] =
      (pivotKeys df).getD j [] ++ (pivotCols df).map
        (fun m => firstNonNan (groupValues df ((pivotKeys df).getD j []) m)) := by
    show ((pivotKeys df).map (fun k => k ++ (pivotCols df).map
        (fun m => firstNonNan (groupValues df k m)))).getD j [] = _
    exact getD_map_of_lt _ _ j hjk [] []
  have hkmem : (pivotKeys df).getD j [] ∈ pivotKeys df :=
    getD_mem_of_lt _ j hjk []
  have hk5 : ((pivotKeys df).getD j []).length = 5 := by
    have hkmem2 : (pivotKeys df).getD j [] ∈
        (dedupKeepFirst ((groupedRows df).map (rowKey df))).filter
          (keyHasValue df) := hkmem
    obtain ⟨r, hr, hrk⟩ :=
      List.mem_map.mp (mem_dedupKeepFirst.mp (List.mem_filter.mp hkmem2).1)
    rw [← hrk, rowKey, List.length_map]
    rfl
  have htake : (((pivot_dataframe df).rows.getD j []).take 5) =
      (pivotKeys df).getD j [] := by
    rw [hrow]
    exact List.take_left' hk5
  have hilen : i - 5 < (pivotCols df).length := by
    have hca : (pivot_dataframe df).cols = keyCols ++ pivotCols df := rfl
    have : (pivot_dataframe df).cols.length = 5 + (pivotCols df).length := by
      rw [hca, List.length_append]
      rfl
    omega
  have hname : colNameD (pivot_dataframe df) i =
      (pivotCols df).getD (i - 5) "" := by
    show (keyCols ++ pivotCols df).getD i "" = _
    rw [getD_append_right_of_le (by simpa [keyCols] using h5) ""]
    rfl
  have hcell : cellAtD (pivot_dataframe df) j i =
      firstNonNan (groupValues df ((pivotKeys df).getD j [])
        ((pivotCols df).getD (i - 5) "")) := by
    rw [cellAtD, hrow, getD_append_right_of_le (by rw [hk5]; exact h5) Cell.nan,
      hk5, getD_map_of_lt _ _ (i - 5) hilen Cell.nan ""]
  refine ⟨?_, ?_⟩
  · rw [hcell, htake, hname]
  · intro hempty
    rw [hcell, htake, hname] at *
    rw [hempty]
    rfl

/-- C4 witness: the amended first-non-null rule evaluated at the
concrete duplicated-key input. -/
theorem c4_witness :
    cellAtD (pivot_dataframe dfDupMeasure) 0 5 =
      firstNonNan (groupValues dfDupMeasure
        (((pivot_dataframe dfDupMeasure).rows.getD 0 []).take 5)
        (colNameD (pivot_dataframe dfDupMeasure) 5)) :=
  (c4_first_nonnull_wins dfDupMeasure 0 5 (by decide) (by decide) (by decide)).1

/-- C2: every successful transform output starts with the five key
columns in the fixed order, and its remaining columns form a
subsequence of the 23-entry Measure Catalog in catalog order, each of
them actually present in the pivoted table (no synthesized empty
columns). -/
theorem c2_column_order (env : RunEnv) (df : DataFrame) (out : DataFrame)
    (hdf : env.loadResult = some df)
    (hok : (transform_csv_to_xlsx env).2 = Except.ok out) :
    out.cols.take 5 = keyCols ∧
    (out.cols.drop 5).Sublist measure_names_order ∧
    (∀ c ∈ out.cols.drop 5, c ∈ (pivot_dataframe df).cols) ∧
    measure_names_order.length = 23 := by
  have hout : out = transformOutput df := by
    unfold transform_csv_to_xlsx at hok
    rw [hdf] at hok
    cases hv : validate_columns df <;>
      cases hp : env.pivotOk <;>
        cases hr : env.reorderOk <;>
          cases hn : env.numericOk <;>
            cases hw : env.writeOk <;>
              simp_all
  subst hout
  have hcols : (transformOutput df).cols =
      keyCols ++ available_measure_names (pivot_dataframe df) := rfl
  refine ⟨?_, ?_, ?_, by decide⟩
  · rw [hcols]
    exact List.take_left' (by decide)
  · rw [hcols, List.drop_left' (show keyCols.length = 5 by decide),
      available_measure_names]
    exact List.filter_sublist _
  · intro c hc
    rw [hcols, List.drop_left' (show keyCols.length = 5 by decide),
      available_measure_names] at hc
    have h := List.mem_filter.mp hc
    simpa using h.2

/-- C2 witness: the column-order invariant evaluated on the concrete
one-row input. -/
theorem c2_witness :
    (transformOutput dfOneRow).cols.take 5 = keyCols ∧
    ((transformOutput dfOneRow).cols.drop 5).Sublist measure_names_order :=
  ⟨(c2_column_order (okEnv dfOneRow) dfOneRow (transformOutput dfOneRow)
      rfl rfl).1,
   (c2_column_order (okEnv dfOneRow) dfOneRow (transformOutput dfOneRow)
      rfl rfl).2.1⟩

/-- C3: in a table whose columns each have a single underlying dtype
(textual or numeric, as the loader and the pivot produce), the Numeric
Normalizer leaves all five key columns unchanged, turns each textual
cell into the number obtained after stripping comma thousands
separators (the missing marker when it does not parse), passes numeric
cells through unchanged, keeps missing cells missing, and never leaves
a string in a non-key cell; the normalizer is a total function, so no
cell content can make it raise. -/
theorem c3_numeric_normalizer (df : DataFrame) (j i : ℕ)
    (hhom : ∀ n, n < df.cols.length →
      ¬(colHasStr df n = true ∧ colHasNum df n = true))
    (hj : j < df.rows.length) (hi : i < df.cols.length) :
    (colNameD df i ∈ keyCols →
      cellAtD (process_numeric_values df) j i = cellAtD df j i) ∧
    (colNameD df i ∉ keyCols →
      (∀ s, cellAtD df j i = Cell.str s →
        cellAtD (process_numeric_values df) j i =
          to_numeric_str (stripCommas s)) ∧
      (∀ q, cellAtD df j i = Cell.num q →
        cellAtD (process_numeric_values df) j i = Cell.num q) ∧
      (cellAtD df j i = Cell.nan →
        cellAtD (process_numeric_values df) j i = Cell.nan) ∧
      isStrCell (cellAtD (process_numeric_values df) j i) = false) := by
  have hrow : (process_numeric_values df).rows.getD j [] =
      (List.range df.cols.length).map (fun n =>
        if df.cols.getD n "" ∈ keyCols then
          (df.rows.getD j []).getD n Cell.nan
        else if colHasStr df n then
          objectCoerce ((df.rows.getD j []).getD n Cell.nan)
        else numericCoerce ((df.rows.getD j []).getD n Cell.nan)) := by
    show (df.rows.map (fun r =>
      (List.range df.cols.length).map (fun n =>
        if df.cols.getD n "" ∈ keyCols then r.getD n Cell.nan
        else if colHasStr df n then objectCoerce (r.getD n Cell.nan)
        else numericCoerce (r.getD n Cell.nan)))).getD j [] = _
    exact getD_map_of_lt _ _ j hj [] []
  have hrange : (List.range df.cols.length).getD i 0 = i := by
    rw [List.getD_eq_getElem?_getD, List.getElem?_range hi]
    rfl
  have hcell : cellAtD (process_numeric_values df) j i =
      (if df.cols.getD i "" ∈ keyCols then cellAtD df j i
       else if colHasStr df i then objectCoerce (cellAtD df j i)
       else numericCoerce (cellAtD df j i)) := by
    show ((process_numeric_values df).rows.getD j []).getD i Cell.nan = _
    rw [hrow]
    rw [getD_map_of_lt _ _ i (by simpa using hi) Cell.nan 0]
    rw [hrange]
    rfl
  constructor
  · intro hk
    rw [hcell, if_pos (show df.cols.getD i "" ∈ keyCols from hk)]
  · intro hk
    have hk2 : df.cols.getD i "" ∉ keyCols := hk
    rw [hcell, if_neg hk2]
    by_cases hs : colHasStr df i = true
    · rw [if_pos hs]
      refine ⟨?_, ?_, ?_, ?_⟩
      · intro s hcs
        rw [hcs]
        rfl
      · intro q hcq
        exfalso
        have hnum : colHasNum df i = true := by
          show (df.rows.any (fun r => isNumCell (r.getD i Cell.nan))) = true
          rw [List.any_eq_true]
          refine ⟨df.rows.getD j [], getD_mem_of_lt _ j hj [], ?_⟩
          have hcv : (df.rows.getD j []).getD i Cell.nan = Cell.num q := hcq
          rw [hcv]
          rfl
        exact hhom i hi ⟨hs, hnum⟩
      · intro hcn
        rw [hcn]
        rfl
      · exact isStrCell_objectCoerce _
    · rw [if_neg hs]
      refine ⟨?_, ?_, ?_, ?_⟩
      · intro s hcs
        exfalso
        apply hs
        show (df.rows.any (fun r => isStrCell (r.getD i Cell.nan))) = true
        rw [List.any_eq_true]
        refine ⟨df.rows.getD j [], getD_mem_of_lt _ j hj [], ?_⟩
        have hcv : (df.rows.getD j []).getD i Cell.nan = Cell.str s := hcs
        rw [hcv]
        rfl
      · intro q hcq
        rw [hcq]
        rfl
      · intro hcn
        rw [hcn]
        rfl
      · exact isStrCell_numericCoerce _

/-- C3 witness: on the concrete mixed table, the textual cell `"1,234"`
becomes 1234, the textual cells `"abc"` and `""` become the missing
marker, the scientific literal `"1e5"` becomes 100000, the padded
`" 5"` becomes 5, the numeric cell 42 passes through, and the key cell
keeps its text. -/
theorem c3_witness :
    cellAtD (process_numeric_values dfMixedCells) 0 5 = Cell.num 1234 ∧
    cellAtD (process_numeric_values dfMixedCells) 1 5 = Cell.nan ∧
    cellAtD (process_numeric_values dfMixedCells) 2 5 = Cell.nan ∧
    cellAtD (process_numeric_values dfMixedCells) 3 5 = Cell.num 100000 ∧
    cellAtD (process_numeric_values dfMixedCells) 4 5 = Cell.num 5 ∧
    cellAtD (process_numeric_values dfMixedCells) 0 6 = Cell.num 42 ∧
    cellAtD (process_numeric_values dfMixedCells) 0 0 = Cell.str "A" := by
  have h05 := c3_numeric_normalizer dfMixedCells 0 5 (by decide) (by decide)
    (by decide)
  have h15 := c3_numeric_normalizer dfMixedCells 1 5 (by decide) (by decide)
    (by decide)
  have h25 := c3_numeric_normalizer dfMixedCells 2 5 (by decide) (by decide)
    (by decide)
  have h35 := c3_numeric_normalizer dfMixedCells 3 5 (by decide) (by decide)
    (by decide)
  have h45 := c3_numeric_normalizer dfMixedCells 4 5 (by decide) (by decide)
    (by decide)
  have h06 := c3_numeric_normalizer dfMixedCells 0 6 (by decide) (by decide)
    (by decide)
  have h00 := c3_numeric_normalizer dfMixedCells 0 0 (by decide) (by decide)
    (by decide)
  refine ⟨?_, ?_, ?_, ?_, ?_, ?_, ?_⟩
  · rw [(h05.2 (by decide)).1 "1,234" (by decide)]
    decide
  · rw [(h15.2 (by decide)).1 "abc" (by decide)]
    decide
  · rw [(h25.2 (by decide)).1 "" (by decide)]
    decide
  · rw [(h35.2 (by decide)).1 "1e5" (by decide)]
    decide
  · rw [(h45.2 (by decide)).1 " 5" (by decide)]
    decide
  · exact (h06.2 (by decide)).2.1 42 (by decide)
  · rw [h00.1 (by decide)]
    decide
